import Mathlib

/-!
Verification of the Mug Mockup API (an Express HTTP service that forwards
image URLs to an external generative model and post-processes the returned
image).

The development shallowly embeds the two request handlers of the repository:
the inline-mode variant (`server.js`, returning the processed image as a
base64 data URI) and the persistence-mode retention sweeper
(`cleanupOldFiles` of the second variant).  Network fetches, the sharp image
library and the external model are modelled as explicit parameters of an
environment record: each is a function the handler calls, with `Except`
capturing a thrown JavaScript error.  Byte buffers are `List Nat`; base64
encoding is a bijection on the byte content and is elided, so inline payload
parts carry the bytes themselves.
-/

namespace MugMockup

/-! ### Data model -/

/-- One part of the multi-part payload handed to the external model: either an
inline binary image part or a text part.  Mirrors the objects pushed into the
`parts` array of `server.js` (lines 201-229). -/
inductive Part where
  | inlineData (data : List Nat) (mimeType : String)
  | text (s : String)
deriving DecidableEq, Repr

/-- The `content` field of a model candidate. -/
structure Content where
  parts : List Part
deriving DecidableEq, Repr

/-- One candidate of the external model's response. -/
structure Candidate where
  content : Content
deriving DecidableEq, Repr

/-- The external model's response: `candidates` may be absent (`none`) or an
arbitrary list, exactly as the handler's guard
`!response.candidates || response.candidates.length === 0` distinguishes. -/
structure GeminiResponse where
  candidates : Option (List Candidate)
deriving DecidableEq, Repr

/-- Result of a `fetch` that resolved: HTTP success flag, status text, body
bytes and the optional `content-type` header. -/
structure FetchResult where
  ok : Bool
  statusText : String
  body : List Nat
  contentType : Option String
deriving DecidableEq, Repr

/-- A decoded raster image: pixel dimensions plus the underlying bytes. -/
structure ImageBuf where
  width : Nat
  height : Nat
  bytes : List Nat
deriving DecidableEq, Repr

/-- The effectful collaborators of the inline-mode handler.  `fetch` models
the global `fetch` (an `Except.error` is a rejected promise); `toPng` models
`sharp(buffer).png().toBuffer()`; `model` models
`model.generateContent(parts)` followed by `result.response`; `decode` models
sharp decoding the model's output buffer; `encode` models re-encoding at a
codec, quality and target dimensions. -/
structure Env where
  fetch : String → Except String FetchResult
  toPng : List Nat → Except String (List Nat)
  model : List Part → Except String GeminiResponse
  decode : List Nat → Except String ImageBuf
  encode : String → Nat → Nat × Nat → List Nat → List Nat

/-- The JSON body of `POST /api/generate-mockup` (inline-mode variant):
`none` is an absent field; the handler's destructuring defaults are applied
inside the handler. -/
structure Body where
  mockupUrl : Option String := none
  designUrl : Option String := none
  referenceUrl : Option String := none
  outputFormat : Option String := none
  quality : Option Nat := none
  maxWidth : Option Nat := none
  designSize : Option String := none
deriving DecidableEq, Repr

/-- Observable external actions of one request: an HTTP image fetch or the
call to the external generation model. -/
inductive Effect where
  | fetchUrl (url : String)
  | modelCall (parts : List Part)
deriving DecidableEq, Repr

/-- Projection of the handler's JSON reply onto the fields the specification
talks about.  `reductionPct` is the numeric value of the `reduction` field
before `toFixed` display formatting. -/
structure HttpResponse where
  status : Nat
  success : Bool
  error : Option String := none
  message : Option String := none
  imageData : Option (List Nat) := none
  imageMime : Option String := none
  reductionPct : Option ℚ := none
  format : Option String := none
  quality : Option Nat := none
deriving DecidableEq, Repr

/-! ### Image normalizer (`ensurePNG`, server.js lines 27-46) -/

/-- JavaScript falsiness of an optional string request field: absent or the
empty string. -/
def falsy : Option String → Bool
  | none => true
  | some s => s = ""

/-- Embedding of `ensurePNG(buffer, originalMimeType)`: identity fast path
when the declared type is already `image/png`, otherwise conversion through
sharp (`toPng`); a conversion failure is rethrown with the
`Failed to convert image to PNG:` prefix. -/
def ensurePNG (toPng : List Nat → Except String (List Nat)) (buffer : List Nat)
    (originalMimeType : String) : Except String (List Nat × String) :=
  if originalMimeType = "image/png" then
    .ok (buffer, "image/png")
  else
    match toPng buffer with
    | .ok pngBuffer => .ok (pngBuffer, "image/png")
    | .error e => .error ("Failed to convert image to PNG: " ++ e)

/-! ### Design size table and prompt (server.js lines 132-197) -/

/-- Entry of the `sizeSpecs` table. -/
structure SizeSpec where
  coverage : String
  description : String
  dimensions : String
deriving DecidableEq, Repr

/-- `sizeSpecs.small`. -/
def sizeSpecSmall : SizeSpec :=
  { coverage := "35-40%",
    description := "Small, subtle design (like a small logo or icon)",
    dimensions := "2 inches wide on a standard 11oz mug" }

/-- `sizeSpecs.medium`. -/
def sizeSpecMedium : SizeSpec :=
  { coverage := "50-60%",
    description := "Medium-sized design (standard product mockup)",
    dimensions := "3-3.5 inches wide on a standard 11oz mug" }

/-- `sizeSpecs.large`. -/
def sizeSpecLarge : SizeSpec :=
  { coverage := "65-75%",
    description := "Large, prominent design (wrap-around effect)",
    dimensions := "4-4.5 inches wide on a standard 11oz mug" }

/-- `sizeSpecs[designSize] || sizeSpecs.medium`. -/
def selectedSpec (designSize : String) : SizeSpec :=
  if designSize = "small" then sizeSpecSmall
  else if designSize = "medium" then sizeSpecMedium
  else if designSize = "large" then sizeSpecLarge
  else sizeSpecMedium

/-- The instruction prompt template of server.js lines 154-197, realized for
a given presence of the reference image, the requested design size and the
selected size specification. -/
def mkPrompt (hasRef : Bool) (designSize : String) (sz : SizeSpec) : String :=
  "You are a world-class graphic designer specializing in product mockups. \n\nI am providing "
  ++ (if hasRef then "three" else "two") ++ " images:\n"
  ++ (if hasRef then
        "1. A REFERENCE mockup showing EXACTLY the size and positioning I want you to replicate\n2. A base \"Mug Mockup\" image (blank mug photo)\n3. A \"Design\" image (artwork/logo to apply)"
      else
        "1. A base \"Mug Mockup\" image (blank mug photo)\n2. A \"Design\" image (artwork/logo to apply)")
  ++ "\n\n🚨 CRITICAL BACKGROUND/TRANSPARENCY RULES:\n- The mug surface MUST remain WHITE (or its original color) wherever there is NO design\n- If the design has a black background, DO NOT apply black to the mug - treat black backgrounds as transparent\n- ONLY apply the actual design elements (text, graphics, illustrations) to the mug\n- Ignore any background color in the design image - backgrounds should be treated as transparent\n- The white mug should stay completely white except where the design artwork appears\n- Think of the design as a sticker or decal - only the printed elements go on the mug, not the background\n\nCRITICAL SIZING REQUIREMENTS:\n"
  ++ (if hasRef then
        "- Study the REFERENCE image carefully and replicate the EXACT size and position of the design\n- The design in the reference shows the perfect scale - match it precisely\n- Maintain the same relative proportions as shown in the reference"
      else
        "- The design MUST cover approximately " ++ sz.coverage
        ++ " of the visible mug width\n- Design specifications: " ++ sz.description
        ++ "\n- Physical size reference: " ++ sz.dimensions
        ++ "\n- The design size MUST remain consistent regardless of mug angle or perspective")
  ++ "\n\nPOSITIONING REQUIREMENTS:\n- Center the design both horizontally and vertically on the visible mug surface\n- Position the design at the same height as shown in "
  ++ (if hasRef then "the reference image" else "standard product photography")
  ++ "\n- Maintain consistent positioning even if the mug is viewed from different angles\n\nQUALITY REQUIREMENTS:\n- Intelligently identify the visible surface of the mug in the base mockup\n- Map ONLY the design elements (not backgrounds) onto that surface\n- Follow the physical curvature of the mug perfectly\n- Apply perspective distortion to match the mug's cylindrical shape\n- Match the lighting, shadows, and reflections of the original scene\n- The design should look naturally printed on the mug, not pasted on\n- Retain the original background and surrounding elements of the mockup\n- Ensure crisp, clear design details\n- Keep the mug's original white color intact outside the design area\n\nEXAMPLES OF CORRECT HANDLING:\n✅ Design with black background → Apply only the colored/white elements, ignore black background\n✅ Design with white text on black → Apply only the white text as white print on the mug\n✅ Colorful logo on black background → Apply only the logo, keep mug white around it\n✅ Text design → Apply text cleanly without any background rectangles or patches\n\n"
  ++ (if hasRef then
        "REMEMBER: The reference image is your sizing guide. Match it exactly!"
      else
        "REMEMBER: Consistency is KEY. Every mockup with \"" ++ designSize
        ++ "\" size should have the design at " ++ sz.coverage ++ " of mug width.")
  ++ "\n\nGenerate a realistic, professionally-sized product mockup with proper transparency handling."

/-! ### Multi-part payload (server.js lines 201-229) -/

/-- The `parts` array handed to `model.generateContent`: the reference image
first when present, then the mockup image, the design image, and the prompt
text last. -/
def buildParts (reference : Option (List Nat × String)) (mockup design : List Nat × String)
    (prompt : String) : List Part :=
  (match reference with
   | some r => [Part.inlineData r.1 r.2]
   | none => []) ++
  [Part.inlineData mockup.1 mockup.2, Part.inlineData design.1 design.2, Part.text prompt]

/-! ### Response extraction (server.js lines 236-253) -/

/-- The `for (const part of parts)` loop: the first inline-data part wins. -/
def findInline : List Part → Option (List Nat × String)
  | [] => none
  | Part.inlineData d m :: _ => some (d, m)
  | Part.text _ :: ps => findInline ps

/-- Extraction of the generated image from the model response: an absent or
empty candidate list throws `No response from AI model`; a first candidate
without any inline part throws `No image in response`. -/
def extractImage (resp : GeminiResponse) : Except String (List Nat × String) :=
  match resp.candidates with
  | none => .error "No response from AI model"
  | some [] => .error "No response from AI model"
  | some (c :: _) =>
    match findInline c.content.parts with
    | some dm => .ok dm
    | none => .error "No image in response"

/-! ### Output transcoder (server.js lines 264-295) -/

/-- Division rounded to nearest (ties up), as sharp rounds scaled dimensions. -/
def roundDiv (a b : Nat) : Nat := (2 * a + b) / (2 * b)

/-- Dimension computation of
`sharp.resize(maxW, maxH, { fit: 'inside', withoutEnlargement: true })`:
an image already fitting the box is untouched; otherwise it is scaled down by
the smaller of the two ratios, preserving aspect ratio, each dimension at
least one pixel. -/
def resizeInside (w h maxW maxH : Nat) : Nat × Nat :=
  if w ≤ maxW ∧ h ≤ maxH then (w, h)
  else if h * maxW ≤ w * maxH then (maxW, max 1 (roundDiv (h * maxW) w))
  else (max 1 (roundDiv (w * maxH) h), maxH)

/-- The output transcoding step (server.js lines 264-295): decode the model's
buffer, resize to fit inside a `maxWidth × maxWidth` box without enlargement,
then re-encode as JPEG when `outputFormat` is `jpeg`/`jpg` and as PNG
otherwise.  Returns the transcoded image and the realized MIME type. -/
def transcodeOutput (env : Env) (outputFormat : String) (quality maxWidth : Nat)
    (originalBuffer : List Nat) : Except String (ImageBuf × String) :=
  match env.decode originalBuffer with
  | .error e => .error e
  | .ok img =>
    let dims := resizeInside img.width img.height maxWidth maxWidth
    if outputFormat = "jpeg" ∨ outputFormat = "jpg" then
      .ok ({ width := dims.1, height := dims.2,
             bytes := env.encode "jpeg" quality dims img.bytes }, "image/jpeg")
    else
      .ok ({ width := dims.1, height := dims.2,
             bytes := env.encode "png" quality dims img.bytes }, "image/png")

/-! ### Response construction and the full inline-mode handler -/

/-- The catch block of the handler (server.js lines 321-329): every thrown
error is mapped to HTTP 500 with the fixed `error` string and the thrown
message. -/
def err500 (msg : String) : HttpResponse :=
  { status := 500, success := false,
    error := some "Failed to generate mockup", message := some msg }

/-- The 200 response of server.js lines 297-319, projected onto the modelled
fields.  The `reduction` metric is `(1 - processed/original) * 100`, computed
from the byte lengths of this request's buffers. -/
def respondInline (originalBuffer processedBuffer : List Nat) (finalMimeType : String)
    (outputFormat : String) (quality : Nat) : HttpResponse :=
  { status := 200, success := true,
    imageData := some processedBuffer,
    imageMime := some finalMimeType,
    reductionPct :=
      some ((1 - (processedBuffer.length : ℚ) / (originalBuffer.length : ℚ)) * 100),
    format := some outputFormat,
    quality := some quality }

/-- The `POST /api/generate-mockup` handler of the inline-mode variant
(server.js lines 49-330), as a function from the environment and the request
body to the list of performed external effects and the HTTP response.
Validation happens before any fetch; a failed reference fetch (non-ok status)
is skipped silently; every thrown error is caught and mapped by `err500`. -/
def generateMockupInline (env : Env) (body : Body) : List Effect × HttpResponse :=
  if falsy body.mockupUrl || falsy body.designUrl then
    ([], { status := 400, success := false,
           error := some "Missing required fields: mockupUrl and designUrl" })
  else
    let mockupUrl := body.mockupUrl.getD ""
    let designUrl := body.designUrl.getD ""
    let outputFormat := body.outputFormat.getD "jpeg"
    let quality := body.quality.getD 85
    let maxWidth := body.maxWidth.getD 2000
    let designSize := body.designSize.getD "medium"
    match env.fetch mockupUrl with
    | .error e => ([.fetchUrl mockupUrl], err500 e)
    | .ok mr =>
      if mr.ok then
        match ensurePNG env.toPng mr.body (mr.contentType.getD "image/png") with
        | .error e => ([.fetchUrl mockupUrl], err500 e)
        | .ok mockC =>
          match env.fetch designUrl with
          | .error e => ([.fetchUrl mockupUrl, .fetchUrl designUrl], err500 e)
          | .ok dr =>
            if dr.ok then
              match ensurePNG env.toPng dr.body (dr.contentType.getD "image/png") with
              | .error e => ([.fetchUrl mockupUrl, .fetchUrl designUrl], err500 e)
              | .ok desC =>
                let refStep : List Effect × Except String (Option (List Nat × String)) :=
                  if falsy body.referenceUrl then ([], .ok none)
                  else
                    let refUrl := body.referenceUrl.getD ""
                    ([.fetchUrl refUrl],
                     match env.fetch refUrl with
                     | .error e => .error e
                     | .ok rr =>
                       if rr.ok then
                         match ensurePNG env.toPng rr.body (rr.contentType.getD "image/png") with
                         | .error e => .error e
                         | .ok refC => .ok (some refC)
                       else .ok none)
                match refStep.2 with
                | .error e =>
                  ([.fetchUrl mockupUrl, .fetchUrl designUrl] ++ refStep.1, err500 e)
                | .ok refOpt =>
                  let effs0 := [Effect.fetchUrl mockupUrl, Effect.fetchUrl designUrl] ++ refStep.1
                  let prompt := mkPrompt refOpt.isSome designSize (selectedSpec designSize)
                  let parts := buildParts refOpt mockC desC prompt
                  match env.model parts with
                  | .error e => (effs0 ++ [.modelCall parts], err500 e)
                  | .ok resp =>
                    match extractImage resp with
                    | .error e => (effs0 ++ [.modelCall parts], err500 e)
                    | .ok (originalBuffer, _gm) =>
                      match transcodeOutput env outputFormat quality maxWidth originalBuffer with
                      | .error e => (effs0 ++ [.modelCall parts], err500 e)
                      | .ok (img, finalMimeType) =>
                        (effs0 ++ [.modelCall parts],
                         respondInline originalBuffer img.bytes finalMimeType outputFormat quality)
            else
              ([.fetchUrl mockupUrl, .fetchUrl designUrl],
               err500 ("Failed to fetch design: " ++ dr.statusText))
      else
        ([.fetchUrl mockupUrl], err500 ("Failed to fetch mockup: " ++ mr.statusText))

/-! ### Retention sweeper (`cleanupOldFiles`, persistence-mode variant
lines 249-275) -/

/-- A file of the uploads directory as the sweep sees it: its name, its
last-modified timestamp in milliseconds and whether it still exists when
`statSync` is called (`present = false` models a file deleted concurrently
between `readdirSync` and `statSync`, for which `statSync` throws). -/
structure FileEnt where
  name : String
  mtimeMs : Int
  present : Bool
deriving DecidableEq, Repr

/-- The retention window `maxAge = 24 * 60 * 60 * 1000` milliseconds. -/
def retentionMaxAgeMs : Int := 24 * 60 * 60 * 1000

/-- The sweep interval of `setInterval(cleanupOldFiles, 60 * 60 * 1000)`. -/
def cleanupIntervalMs : Nat := 60 * 60 * 1000

/-- The `files.forEach` loop of `cleanupOldFiles` under the single outer
try/catch: files are processed in listing order; a file whose `statSync`
throws aborts the remaining iteration (the exception propagates to the outer
catch).  Returns the directory listing after the sweep, the number of deleted
files and whether an error was caught (and logged). -/
def sweepRun (now maxAge : Int) : List FileEnt → List FileEnt × Nat × Bool
  | [] => ([], 0, false)
  | f :: fs =>
    if f.present then
      if now - f.mtimeMs > maxAge then
        let r := sweepRun now maxAge fs
        (r.1, r.2.1 + 1, r.2.2)
      else
        let r := sweepRun now maxAge fs
        (f :: r.1, r.2.1, r.2.2)
    else (f :: fs, 0, true)

/-- `cleanupOldFiles` itself: one sweep over the current listing with the
24-hour retention window.  It is a total function — the outer catch turns any
per-file failure into a logged flag, never an exception to the timer. -/
def cleanupOldFiles (now : Int) (files : List FileEnt) : List FileEnt × Nat × Bool :=
  sweepRun now retentionMaxAgeMs files

/-! ### Test fixtures (concrete environments used to instantiate the
theorems below) -/

/-- A successful fetch result delivering PNG-typed bytes. -/
def pngFetchOk : FetchResult :=
  { ok := true, statusText := "OK", body := [1, 2, 3, 4], contentType := some "image/png" }

/-- A fetch that resolved with a non-success HTTP status. -/
def badFetch : FetchResult :=
  { ok := false, statusText := "Not Found", body := [], contentType := none }

/-- A model response with an empty candidate list. -/
def respEmpty : GeminiResponse := ⟨some []⟩

/-- A model response whose first candidate carries one inline image part. -/
def respWithImage : GeminiResponse :=
  ⟨some [⟨⟨[Part.inlineData [9, 9] "image/png"]⟩⟩]⟩

/-- A conversion that accepts every buffer unchanged. -/
def idToPng : List Nat → Except String (List Nat) := fun b => .ok b

/-- Environment whose model call returns an empty candidate list. -/
def envEmptyResp : Env :=
  { fetch := fun _ => .ok pngFetchOk, toPng := idToPng,
    model := fun _ => .ok respEmpty, decode := fun b => .ok ⟨4, 2, b⟩,
    encode := fun _ _ _ b => b }

/-- A model response with an absent candidate list. -/
def respNoCand : GeminiResponse := ⟨none⟩

/-- Environment whose model call returns a response with no candidate list. -/
def envNoCand : Env :=
  { fetch := fun _ => .ok pngFetchOk, toPng := idToPng,
    model := fun _ => .ok respNoCand, decode := fun b => .ok ⟨4, 2, b⟩,
    encode := fun _ _ _ b => b }

/-- Environment where everything succeeds. -/
def envHappy : Env :=
  { fetch := fun _ => .ok pngFetchOk, toPng := idToPng,
    model := fun _ => .ok respWithImage, decode := fun b => .ok ⟨4, 2, b⟩,
    encode := fun _ _ _ b => b }

/-- Environment where only the reference URL resolves with a non-success
status. -/
def envRefDown : Env :=
  { fetch := fun u => if u = "https://x/ref.png" then .ok badFetch else .ok pngFetchOk,
    toPng := idToPng,
    model := fun _ => .ok respWithImage, decode := fun b => .ok ⟨4, 2, b⟩,
    encode := fun _ _ _ b => b }

/-- A recently written upload. -/
def freshFile : FileEnt := ⟨"mockup_new.jpg", 90000000, true⟩

/-- An upload older than the 24-hour retention window (at `now = 100000000`). -/
def staleFile : FileEnt := ⟨"mockup_old.jpg", 0, true⟩

/-- A listed upload already deleted by another process when `statSync` runs. -/
def goneFile : FileEnt := ⟨"mockup_gone.jpg", 0, false⟩

/-- A listed upload that vanished before its `statSync` (first in a listing,
at `now = 200000000`). -/
def vanishedFile : FileEnt := ⟨"mockup_vanished.jpg", 150000000, false⟩

/-- A present upload aged far beyond the retention window at
`now = 200000000`. -/
def expiredFile : FileEnt := ⟨"mockup_expired.jpg", 10000000, true⟩

/-! ### Helper lemmas -/

/-- A non-empty string field is not falsy. -/
theorem falsy_some_eq_false {s : String} (h : s ≠ "") : falsy (some s) = false := by
  simp [falsy, h]

/-- Rounded division stays below a bound: if `a ≤ b * c` then `a / b` rounded
to nearest is at most `c`. -/
theorem roundDiv_le {a b c : ℕ} (hb : 0 < b) (h : a ≤ b * c) : roundDiv a b ≤ c := by
  have h2 : 2 * a + b < (c + 1) * (2 * b) := by nlinarith
  have h3 : (2 * a + b) / (2 * b) < c + 1 :=
    (Nat.div_lt_iff_lt_mul (by omega)).mpr h2
  have h4 : (2 * a + b) / (2 * b) ≤ c := Nat.lt_succ_iff.mp h3
  unfold roundDiv
  exact h4

/-- Both components of the fit-inside resize are bounded by the box. -/
theorem resizeInside_le (w h maxW maxH : ℕ) (hW : 1 ≤ maxW) (hH : 1 ≤ maxH) :
    (resizeInside w h maxW maxH).1 ≤ maxW ∧ (resizeInside w h maxW maxH).2 ≤ maxH := by
  unfold resizeInside
  split_ifs with h1 h2
  · exact ⟨h1.1, h1.2⟩
  · refine ⟨le_refl _, ?_⟩
    have hw : 0 < w := by
      rcases Nat.eq_zero_or_pos w with hw0 | hw0
      · subst hw0
        simp only [Nat.zero_mul, Nat.le_zero, Nat.mul_eq_zero] at h2
        rcases h2 with h2 | h2
        · subst h2
          exact absurd ⟨Nat.zero_le _, Nat.zero_le _⟩ h1
        · omega
      · exact hw0
    have hb : roundDiv (h * maxW) w ≤ maxH := roundDiv_le hw h2
    simpa [Nat.max_le] using And.intro hH hb
  · have hlt : w * maxH < h * maxW := Nat.lt_of_not_le h2
    have hh : 0 < h := by
      rcases Nat.eq_zero_or_pos h with hh0 | hh0
      · subst hh0; simp at hlt
      · exact hh0
    have hb : roundDiv (w * maxH) h ≤ maxW := roundDiv_le hh (Nat.le_of_lt hlt)
    refine ⟨?_, le_refl _⟩
    simpa [Nat.max_le] using And.intro hW hb

/-- An image already inside the box is left untouched. -/
theorem resizeInside_noEnlarge {w h maxW maxH : ℕ} (hw : w ≤ maxW) (hh : h ≤ maxH) :
    resizeInside w h maxW maxH = (w, h) := by
  unfold resizeInside
  rw [if_pos ⟨hw, hh⟩]

/-! ### Claim theorems -/

/-- C3: for every image input and output specification, the output
transcoder's result has neither dimension exceeding `maxWidth`, and an image
whose dimensions already fit is never enlarged (its dimensions are returned
unchanged). -/
theorem transcode_bounded_no_enlarge (env : Env) (fmt : String) (q maxW : ℕ)
    (buf : List Nat) (img : ImageBuf) (mime : String) (hW : 1 ≤ maxW)
    (h : transcodeOutput env fmt q maxW buf = .ok (img, mime)) :
    img.width ≤ maxW ∧ img.height ≤ maxW ∧
      ∀ src, env.decode buf = .ok src → src.width ≤ maxW → src.height ≤ maxW →
        img.width = src.width ∧ img.height = src.height := by
  unfold transcodeOutput at h
  cases hd : env.decode buf with
  | error e => rw [hd] at h; cases h
  | ok src0 =>
    rw [hd] at h
    simp only [] at h
    have hle := resizeInside_le src0.width src0.height maxW maxW hW hW
    have himg : img.width = (resizeInside src0.width src0.height maxW maxW).1 ∧
        img.height = (resizeInside src0.width src0.height maxW maxW).2 := by
      split_ifs at h with hf <;>
        (simp only [Except.ok.injEq, Prod.mk.injEq] at h; obtain ⟨h5, -⟩ := h;
         rw [← h5]; exact ⟨rfl, rfl⟩)
    refine ⟨himg.1 ▸ hle.1, himg.2 ▸ hle.2, ?_⟩
    intro src hsrc hsw hsh
    rw [Except.ok.injEq] at hsrc
    subst hsrc
    rw [himg.1, himg.2, resizeInside_noEnlarge hsw hsh]
    exact ⟨rfl, rfl⟩

/-- C3 witness: the theorem applied at a concrete environment and input. -/
theorem transcode_bounded_no_enlarge_witness :
    (⟨4, 2, [9, 9]⟩ : ImageBuf).width ≤ 1000 ∧ (⟨4, 2, [9, 9]⟩ : ImageBuf).height ≤ 1000 ∧
      ∀ src, envHappy.decode [9, 9] = .ok src → src.width ≤ 1000 → src.height ≤ 1000 →
        (⟨4, 2, [9, 9]⟩ : ImageBuf).width = src.width ∧
          (⟨4, 2, [9, 9]⟩ : ImageBuf).height = src.height :=
  transcode_bounded_no_enlarge envHappy "jpeg" 80 1000 [9, 9] ⟨4, 2, [9, 9]⟩
    "image/jpeg" (by decide) rfl

/-- C4: a buffer whose declared MIME type is already `image/png` is returned
byte-identical, with MIME type `image/png`, whatever the conversion function
would do (identity fast path, no recompression). -/
theorem ensurePNG_identity_fast_path (toPng : List Nat → Except String (List Nat))
    (buffer : List Nat) :
    ensurePNG toPng buffer "image/png" = .ok (buffer, "image/png") := by
  simp [ensurePNG]

/-- C2 counterexample: the bytes of an HTML page (`<html>`), declared as
`image/png`, are not decodable as any raster format (the conversion function
rejects them), yet `ensurePNG` returns them unchanged instead of failing:
the declared MIME type is trusted on the fast path. -/
theorem ensurePNG_trusts_declared_png_cex :
    ensurePNG (fun _ => .error "Input buffer contains unsupported image format")
        [60, 104, 116, 109, 108, 62] "image/png"
      = .ok ([60, 104, 116, 109, 108, 62], "image/png") := rfl

/-- C2 amended: for every input whose declared MIME type differs from
`image/png`, undecodable bytes make `ensurePNG` fail with the conversion
error, and every buffer returned through the conversion path decodes as PNG
(given that the sharp conversion only succeeds with PNG output); the
`image/png` fast path passes bytes through unverified. -/
theorem ensurePNG_conversion_path_guarantees_png
    (toPng : List Nat → Except String (List Nat)) (decodesAsPng : List Nat → Prop)
    (hsharp : ∀ b r, toPng b = .ok r → decodesAsPng r)
    (buffer : List Nat) (mime : String) (hm : mime ≠ "image/png") :
    (∀ e, toPng buffer = .error e →
        ensurePNG toPng buffer mime = .error ("Failed to convert image to PNG: " ++ e)) ∧
    (∀ out m, ensurePNG toPng buffer mime = .ok (out, m) →
        decodesAsPng out ∧ m = "image/png") := by
  constructor
  · intro e he
    simp [ensurePNG, hm, he]
  · intro out m hok
    simp only [ensurePNG, if_neg hm] at hok
    cases ht : toPng buffer with
    | ok r =>
      rw [ht] at hok
      simp only [Except.ok.injEq, Prod.mk.injEq] at hok
      exact ⟨hok.1 ▸ hsharp _ _ ht, hok.2.symm⟩
    | error e =>
      rw [ht] at hok
      cases hok

/-- C2 amended witness: the theorem applied at a conversion accepting every
buffer, for a JPEG-declared input. -/
theorem ensurePNG_conversion_path_guarantees_png_witness :
    (∀ e, idToPng [1] = .error e →
        ensurePNG idToPng [1] "image/jpeg" = .error ("Failed to convert image to PNG: " ++ e)) ∧
    (∀ out m, ensurePNG idToPng [1] "image/jpeg" = .ok (out, m) →
        (fun _ : List Nat => True) out ∧ m = "image/png") :=
  ensurePNG_conversion_path_guarantees_png idToPng (fun _ => True)
    (fun _ _ _ => trivial) [1] "image/jpeg" (by decide)

/-- C5 counterexample: at a concrete reference, mockup, design and prompt,
the payload handed to the external model is not ordered with the instruction
text first — the text part comes last, after the images. -/
theorem parts_order_text_not_first_cex :
    buildParts (some ([7], "image/png")) ([8], "image/png") ([9], "image/png") "instr"
      ≠ [Part.text "instr", Part.inlineData [7] "image/png",
         Part.inlineData [8] "image/png", Part.inlineData [9] "image/png"] := by
  decide

/-- C7 counterexample: a sweep over a listing whose first file was already
deleted by another process (so `statSync` throws) deletes nothing at all —
the second file is present and older than 24 hours, yet it is retained,
because the single try/catch wraps the whole loop and the failure aborts the
remaining files. -/
theorem sweep_aborts_on_failure_cex :
    cleanupOldFiles 100000000 [goneFile, staleFile] = ([goneFile, staleFile], 0, true) ∧
      (100000000 : Int) - staleFile.mtimeMs > retentionMaxAgeMs ∧
      staleFile.present = true := by
  refine ⟨rfl, by decide, rfl⟩

/-- The sweep deletes a present file older than the retention window and
recurses. -/
theorem sweepRun_cons_delete {now maxAge : Int} {g : FileEnt} {gs : List FileEnt}
    (hg : g.present = true) (hage : maxAge < now - g.mtimeMs) :
    sweepRun now maxAge (g :: gs)
      = ((sweepRun now maxAge gs).1, (sweepRun now maxAge gs).2.1 + 1,
         (sweepRun now maxAge gs).2.2) := by
  simp [sweepRun, hg, hage]

/-- The sweep keeps a present file inside the retention window and recurses. -/
theorem sweepRun_cons_keep {now maxAge : Int} {g : FileEnt} {gs : List FileEnt}
    (hg : g.present = true) (hage : now - g.mtimeMs ≤ maxAge) :
    sweepRun now maxAge (g :: gs)
      = (g :: (sweepRun now maxAge gs).1, (sweepRun now maxAge gs).2.1,
         (sweepRun now maxAge gs).2.2) := by
  have hn : ¬ (maxAge < now - g.mtimeMs) := Int.not_lt.mpr hage
  simp [sweepRun, hg, hn]

/-- A file missing at `statSync` time makes that call throw: the whole
remaining iteration is abandoned and the outer catch sets the error flag. -/
theorem sweepRun_cons_missing {now maxAge : Int} {g : FileEnt} {gs : List FileEnt}
    (hg : g.present = false) :
    sweepRun now maxAge (g :: gs) = (g :: gs, 0, true) := by
  simp [sweepRun, hg]

/-- On a listing of present files the sweep retains exactly the files whose
age is within the window, and no error occurs. -/
theorem sweepRun_all_present (now maxAge : Int) (files : List FileEnt)
    (hp : ∀ f ∈ files, f.present = true) :
    (sweepRun now maxAge files).1
        = files.filter (fun f => decide (now - f.mtimeMs ≤ maxAge)) ∧
      (sweepRun now maxAge files).2.2 = false := by
  induction files with
  | nil => exact ⟨rfl, rfl⟩
  | cons g gs ih =>
    have hg : g.present = true := hp g (List.mem_cons_self g gs)
    have ih' := ih (fun x hx => hp x (List.mem_cons_of_mem g hx))
    rcases Int.lt_or_le maxAge (now - g.mtimeMs) with hage | hage
    · rw [sweepRun_cons_delete hg hage]
      rw [List.filter_cons_of_neg]
      · exact ⟨ih'.1, ih'.2⟩
      · simp only [decide_eq_true_eq]
        omega
    · rw [sweepRun_cons_keep hg hage]
      rw [List.filter_cons_of_pos]
      · exact ⟨by rw [ih'.1], ih'.2⟩
      · simp only [decide_eq_true_eq]
        exact hage

/-- C7 amended: a failure while processing one file is caught by the outer
catch (the sweep returns normally with the error flag set, never raising to
the timer), the files before the failing one are processed normally, but the
failing file and every file after it are left untouched by that sweep. -/
theorem sweep_failure_logged_rest_untouched (now : Int) (pre post : List FileEnt)
    (f : FileEnt) (hpre : ∀ g ∈ pre, g.present = true) (hf : f.present = false) :
    (cleanupOldFiles now (pre ++ f :: post)).1
        = pre.filter (fun g => decide (now - g.mtimeMs ≤ retentionMaxAgeMs)) ++ f :: post ∧
      (cleanupOldFiles now (pre ++ f :: post)).2.2 = true := by
  unfold cleanupOldFiles
  induction pre with
  | nil =>
    rw [List.nil_append, sweepRun_cons_missing hf]
    exact ⟨rfl, rfl⟩
  | cons g gs ih =>
    have hg : g.present = true := hpre g (List.mem_cons_self g gs)
    have ih' := ih (fun x hx => hpre x (List.mem_cons_of_mem g hx))
    rw [List.cons_append]
    rcases Int.lt_or_le retentionMaxAgeMs (now - g.mtimeMs) with hage | hage
    · rw [sweepRun_cons_delete hg hage]
      rw [List.filter_cons_of_neg]
      · exact ⟨ih'.1, ih'.2⟩
      · simp only [decide_eq_true_eq]
        omega
    · rw [sweepRun_cons_keep hg hage]
      rw [List.filter_cons_of_pos]
      · exact ⟨by rw [ih'.1, List.cons_append], ih'.2⟩
      · simp only [decide_eq_true_eq]
        exact hage

/-- C7 amended witness: the theorem applied at a concrete listing — one fresh
file before the missing one, one stale file after it. -/
theorem sweep_failure_logged_rest_untouched_witness :
    (cleanupOldFiles 100000000 ([freshFile] ++ goneFile :: [staleFile])).1
        = [freshFile].filter
            (fun g => decide ((100000000 : Int) - g.mtimeMs ≤ retentionMaxAgeMs))
          ++ goneFile :: [staleFile] ∧
      (cleanupOldFiles 100000000 ([freshFile] ++ goneFile :: [staleFile])).2.2 = true :=
  sweep_failure_logged_rest_untouched 100000000 [freshFile] [staleFile] goneFile
    (by decide) rfl

/-- A file within the retention window survives every sweep, whatever happens
to the other files of the listing: it is kept on the keep branch, untouched
on an abort, and never on the delete branch. -/
theorem sweepRun_keeps_young (now maxAge : Int) :
    ∀ files : List FileEnt, ∀ f ∈ files, now - f.mtimeMs ≤ maxAge →
      f ∈ (sweepRun now maxAge files).1
  | [], f, hf, _ => absurd hf (List.not_mem_nil f)
  | g :: gs, f, hf, hyoung => by
    by_cases hg : g.present = true
    · rcases Int.lt_or_le maxAge (now - g.mtimeMs) with hage | hage
      · rw [sweepRun_cons_delete hg hage]
        rcases List.mem_cons.mp hf with rfl | hf'
        · exact absurd hyoung (Int.not_le.mpr hage)
        · exact sweepRun_keeps_young now maxAge gs f hf' hyoung
      · rw [sweepRun_cons_keep hg hage]
        rcases List.mem_cons.mp hf with rfl | hf'
        · exact List.mem_cons_self _ _
        · exact List.mem_cons_of_mem _ (sweepRun_keeps_young now maxAge gs f hf' hyoung)
    · have hg' : g.present = false := by simpa using hg
      rw [sweepRun_cons_missing hg']
      exact hf

/-- C8 counterexample: a sweep on whose listing a concurrently-deleted file
precedes a stale one.  The stale file is in the directory (present) and aged
far beyond 24 hours, yet the sweep deletes nothing — the failure on the
earlier file aborts the loop — refuting the per-sweep guarantee that every
over-age file in the directory is deleted. -/
theorem sweep_old_file_survives_cex :
    expiredFile.present = true ∧
      (200000000 : Int) - expiredFile.mtimeMs > retentionMaxAgeMs ∧
      expiredFile ∈ (cleanupOldFiles 200000000 [vanishedFile, expiredFile]).1 ∧
      (cleanupOldFiles 200000000 [vanishedFile, expiredFile]).2.1 = 0 := by
  refine ⟨rfl, by decide, by decide, rfl⟩

/-- C8 amended: on every sweep run, every file whose age is at most 24 hours
is retained, and the sweep interval and retention window are one hour and 24
hours; a file whose age exceeds 24 hours is deleted on a sweep in which every
listed file is still present when examined (exactly the files within the
window survive such a sweep) — on a sweep aborted by a concurrently-deleted
file, the files from the failure point on survive until a later sweep. -/
theorem sweep_retention_conditional (now : Int) (files : List FileEnt) :
    (∀ f ∈ files, now - f.mtimeMs ≤ retentionMaxAgeMs →
        f ∈ (cleanupOldFiles now files).1) ∧
      ((∀ f ∈ files, f.present = true) →
        (cleanupOldFiles now files).1
            = files.filter (fun f => decide (now - f.mtimeMs ≤ retentionMaxAgeMs)) ∧
          (cleanupOldFiles now files).2.2 = false) ∧
      retentionMaxAgeMs = 86400000 ∧ cleanupIntervalMs = 3600000 := by
  refine ⟨sweepRun_keeps_young now retentionMaxAgeMs files, fun hp => ?_, rfl, rfl⟩
  exact sweepRun_all_present now retentionMaxAgeMs files hp

/-- C8 amended witness: the theorem applied to a listing of one fresh and one
stale file, both inner hypotheses discharged at the concrete input. -/
theorem sweep_retention_conditional_witness :
    freshFile ∈ (cleanupOldFiles 100000000 [freshFile, staleFile]).1 ∧
      (cleanupOldFiles 100000000 [freshFile, staleFile]).1
          = [freshFile, staleFile].filter
              (fun f => decide ((100000000 : Int) - f.mtimeMs ≤ retentionMaxAgeMs)) ∧
        (cleanupOldFiles 100000000 [freshFile, staleFile]).2.2 = false :=
  ⟨(sweep_retention_conditional 100000000 [freshFile, staleFile]).1 freshFile
      (by decide) (by decide),
   (sweep_retention_conditional 100000000 [freshFile, staleFile]).2.1 (by decide)⟩

/-- C1: when `mockupUrl` or `designUrl` is absent from the request body, the
handler replies HTTP 400 with the fixed error JSON and performs no external
effect at all — no image fetch and no call to the generation model. -/
theorem missing_fields_400_no_external_call (env : Env) (body : Body)
    (h : body.mockupUrl = none ∨ body.designUrl = none) :
    generateMockupInline env body =
      ([], { status := 400, success := false,
             error := some "Missing required fields: mockupUrl and designUrl" }) := by
  rcases h with h | h <;> simp [generateMockupInline, falsy, h]

/-- C1 witness: a body with `mockupUrl` absent, in a fully working
environment. -/
theorem missing_fields_400_no_external_call_witness :
    generateMockupInline envHappy { mockupUrl := none, designUrl := some "https://x/logo.png" }
      = ([], { status := 400, success := false,
               error := some "Missing required fields: mockupUrl and designUrl" }) :=
  missing_fields_400_no_external_call envHappy _ (Or.inl rfl)

/-- C6: when the external model's response has an absent or empty candidate
list, the request terminates with the HTTP 500 `Failed to generate mockup`
response carrying the `No response from AI model` message (the handler
returns normally, it does not crash); when the first candidate's parts
contain no inline binary part, it likewise terminates with HTTP 500 carrying
the `No image in response` message. -/
theorem empty_candidates_500 (env : Env) (body : Body) (mu du : String)
    (r : FetchResult) (resp : GeminiResponse)
    (h1 : body.mockupUrl = some mu) (h2 : mu ≠ "")
    (h3 : body.designUrl = some du) (h4 : du ≠ "")
    (h5 : body.referenceUrl = none)
    (hf : ∀ u, env.fetch u = .ok r) (hok : r.ok = true)
    (hct : r.contentType = some "image/png")
    (hmodel : ∀ ps, env.model ps = .ok resp) :
    ((resp.candidates = none ∨ resp.candidates = some []) →
      (generateMockupInline env body).2 = err500 "No response from AI model") ∧
    (∀ c cs, resp.candidates = some (c :: cs) → findInline c.content.parts = none →
      (generateMockupInline env body).2 = err500 "No image in response") := by
  constructor
  · intro hc
    rcases hc with hc | hc <;>
      simp [generateMockupInline, falsy, h2, h4,
        h1, h3, h5, hf, hok, hct, hmodel, ensurePNG, extractImage, hc]
  · intro c cs hc hfi
    simp [generateMockupInline, falsy, h2, h4,
      h1, h3, h5, hf, hok, hct, hmodel, ensurePNG, extractImage, hc, hfi]

/-- C6 witness: a request in an environment whose model call yields an empty
candidate list. -/
theorem empty_candidates_500_witness :
    (generateMockupInline envEmptyResp
        { mockupUrl := some "https://x/mug.png", designUrl := some "https://x/logo.png" }).2
      = err500 "No response from AI model" :=
  (empty_candidates_500 envEmptyResp _ "https://x/mug.png" "https://x/logo.png"
    pngFetchOk respEmpty rfl (by decide) rfl (by decide) rfl (fun _ => rfl) rfl rfl
    (fun _ => rfl)).1 (Or.inr rfl)

/-- C5 amended: the multi-part payload handed to the external generation call
is ordered with the optional reference image first, then the mockup image,
then the design image, and the instruction text last (not first). -/
theorem parts_order_ref_mockup_design_text (env : Env) (body : Body)
    (mu du ru : String) (rm rd rr : FetchResult) (resp : GeminiResponse)
    (h1 : body.mockupUrl = some mu) (h2 : mu ≠ "")
    (h3 : body.designUrl = some du) (h4 : du ≠ "")
    (h5 : body.referenceUrl = some ru) (h6 : ru ≠ "")
    (hm : env.fetch mu = .ok rm) (hmok : rm.ok = true)
    (hmct : rm.contentType = some "image/png")
    (hd : env.fetch du = .ok rd) (hdok : rd.ok = true)
    (hdct : rd.contentType = some "image/png")
    (hr : env.fetch ru = .ok rr) (hrok : rr.ok = true)
    (hrct : rr.contentType = some "image/png")
    (hmodel : ∀ ps, env.model ps = .ok resp) (hresp : resp.candidates = none) :
    (generateMockupInline env body).1 =
      [Effect.fetchUrl mu, Effect.fetchUrl du, Effect.fetchUrl ru,
       Effect.modelCall
         [Part.inlineData rr.body "image/png", Part.inlineData rm.body "image/png",
          Part.inlineData rd.body "image/png",
          Part.text (mkPrompt true (body.designSize.getD "medium")
            (selectedSpec (body.designSize.getD "medium")))]] := by
  simp [generateMockupInline, falsy, h2, h4, h6, h1, h3, h5,
    hm, hmok, hmct, hd, hdok, hdct, hr, hrok, hrct,
    hmodel, hresp, ensurePNG, extractImage, buildParts]

/-- C5 amended witness: a request with a reference image, all fetches
succeeding. -/
theorem parts_order_ref_mockup_design_text_witness :
    (generateMockupInline envNoCand
        { mockupUrl := some "https://x/mug.png", designUrl := some "https://x/logo.png",
          referenceUrl := some "https://x/ref.png" }).1 =
      [Effect.fetchUrl "https://x/mug.png", Effect.fetchUrl "https://x/logo.png",
       Effect.fetchUrl "https://x/ref.png",
       Effect.modelCall
         [Part.inlineData pngFetchOk.body "image/png",
          Part.inlineData pngFetchOk.body "image/png",
          Part.inlineData pngFetchOk.body "image/png",
          Part.text (mkPrompt true "medium" (selectedSpec "medium"))]] :=
  parts_order_ref_mockup_design_text envNoCand _ "https://x/mug.png" "https://x/logo.png"
    "https://x/ref.png" pngFetchOk pngFetchOk pngFetchOk respNoCand
    rfl (by decide) rfl (by decide) rfl (by decide)
    rfl rfl rfl rfl rfl rfl rfl rfl rfl (fun _ => rfl) rfl

/-- C10: when the supplied reference URL resolves with a non-success HTTP
status, the request does not fail — the reference is skipped, the external
model is invoked with only the mockup image, the design image and the
instruction text, and the request completes with HTTP 200. -/
theorem reference_fetch_failure_nonfatal (env : Env) (body : Body)
    (mu du ru : String) (rm rd rr : FetchResult) (resp : GeminiResponse)
    (c : Candidate) (cs : List Candidate) (gb : List Nat) (gm : String) (src : ImageBuf)
    (h1 : body.mockupUrl = some mu) (h2 : mu ≠ "")
    (h3 : body.designUrl = some du) (h4 : du ≠ "")
    (h5 : body.referenceUrl = some ru) (h6 : ru ≠ "")
    (hof : body.outputFormat = none)
    (hm : env.fetch mu = .ok rm) (hmok : rm.ok = true)
    (hmct : rm.contentType = some "image/png")
    (hd : env.fetch du = .ok rd) (hdok : rd.ok = true)
    (hdct : rd.contentType = some "image/png")
    (hr : env.fetch ru = .ok rr) (hrok : rr.ok = false)
    (hmodel : ∀ ps, env.model ps = .ok resp)
    (hcand : resp.candidates = some (c :: cs))
    (hfi : findInline c.content.parts = some (gb, gm))
    (hdec : env.decode gb = .ok src) :
    (generateMockupInline env body).1 =
      [Effect.fetchUrl mu, Effect.fetchUrl du, Effect.fetchUrl ru,
       Effect.modelCall
         [Part.inlineData rm.body "image/png", Part.inlineData rd.body "image/png",
          Part.text (mkPrompt false (body.designSize.getD "medium")
            (selectedSpec (body.designSize.getD "medium")))]] ∧
    (generateMockupInline env body).2.status = 200 ∧
    (generateMockupInline env body).2.success = true := by
  refine ⟨?_, ?_, ?_⟩ <;>
    simp [generateMockupInline, falsy, h2, h4, h6, h1, h3, h5, hof,
      hm, hmok, hmct, hd, hdok, hdct, hr, hrok,
      hmodel, hcand, hfi, hdec, ensurePNG, extractImage, transcodeOutput, buildParts,
      respondInline]

/-- C10 witness: the reference URL resolves 404 while everything else
succeeds. -/
theorem reference_fetch_failure_nonfatal_witness :
    (generateMockupInline envRefDown
        { mockupUrl := some "https://x/mug.png", designUrl := some "https://x/logo.png",
          referenceUrl := some "https://x/ref.png" }).1 =
      [Effect.fetchUrl "https://x/mug.png", Effect.fetchUrl "https://x/logo.png",
       Effect.fetchUrl "https://x/ref.png",
       Effect.modelCall
         [Part.inlineData pngFetchOk.body "image/png",
          Part.inlineData pngFetchOk.body "image/png",
          Part.text (mkPrompt false "medium" (selectedSpec "medium"))]] ∧
    (generateMockupInline envRefDown
        { mockupUrl := some "https://x/mug.png", designUrl := some "https://x/logo.png",
          referenceUrl := some "https://x/ref.png" }).2.status = 200 ∧
    (generateMockupInline envRefDown
        { mockupUrl := some "https://x/mug.png", designUrl := some "https://x/logo.png",
          referenceUrl := some "https://x/ref.png" }).2.success = true :=
  reference_fetch_failure_nonfatal envRefDown _ "https://x/mug.png" "https://x/logo.png"
    "https://x/ref.png" pngFetchOk pngFetchOk badFetch respWithImage
    ⟨⟨[Part.inlineData [9, 9] "image/png"]⟩⟩ [] [9, 9] "image/png" ⟨4, 2, [9, 9]⟩
    rfl (by decide) rfl (by decide) rfl (by decide) rfl
    rfl rfl rfl rfl rfl rfl rfl rfl (fun _ => rfl) rfl rfl rfl

/-- C9: on a completed request the reported reduction metric equals
`(1 - output_bytes / input_bytes) * 100`, where `output_bytes` is the byte
length of the image actually returned in the response and `input_bytes` the
byte length of the transcoder's actual input (the buffer extracted from the
model response) — recomputed from this request's buffers. -/
theorem reduction_metric_recomputed (env : Env) (body : Body)
    (mu du : String) (r : FetchResult) (resp : GeminiResponse)
    (c : Candidate) (cs : List Candidate) (gb : List Nat) (gm : String) (src : ImageBuf)
    (h1 : body.mockupUrl = some mu) (h2 : mu ≠ "")
    (h3 : body.designUrl = some du) (h4 : du ≠ "")
    (h5 : body.referenceUrl = none) (hof : body.outputFormat = none)
    (hf : ∀ u, env.fetch u = .ok r) (hok : r.ok = true)
    (hct : r.contentType = some "image/png")
    (hmodel : ∀ ps, env.model ps = .ok resp)
    (hcand : resp.candidates = some (c :: cs))
    (hfi : findInline c.content.parts = some (gb, gm))
    (hdec : env.decode gb = .ok src) :
    (generateMockupInline env body).2.reductionPct =
      some ((1 - (((generateMockupInline env body).2.imageData.getD []).length : ℚ)
              / (gb.length : ℚ)) * 100) ∧
    (generateMockupInline env body).2.imageData.isSome = true := by
  constructor <;>
    simp [generateMockupInline, falsy, h2, h4,
      h1, h3, h5, hof, hf, hok, hct, hmodel, hcand, hfi, hdec, ensurePNG, extractImage,
      transcodeOutput, buildParts, respondInline]

/-- C9 witness: a completed request in the all-success environment. -/
theorem reduction_metric_recomputed_witness :
    (generateMockupInline envHappy
        { mockupUrl := some "https://x/mug.png", designUrl := some "https://x/logo.png" }).2.reductionPct =
      some ((1 - (((generateMockupInline envHappy
            { mockupUrl := some "https://x/mug.png", designUrl := some "https://x/logo.png" }).2.imageData.getD []).length : ℚ)
              / (([9, 9] : List Nat).length : ℚ)) * 100) ∧
    (generateMockupInline envHappy
        { mockupUrl := some "https://x/mug.png", designUrl := some "https://x/logo.png" }).2.imageData.isSome = true :=
  reduction_metric_recomputed envHappy _ "https://x/mug.png" "https://x/logo.png"
    pngFetchOk respWithImage ⟨⟨[Part.inlineData [9, 9] "image/png"]⟩⟩ [] [9, 9]
    "image/png" ⟨4, 2, [9, 9]⟩ rfl (by decide) rfl (by decide) rfl rfl
    (fun _ => rfl) rfl rfl (fun _ => rfl) rfl rfl rfl

end MugMockup
